import Mathlib

/-!
Shallow embedding of the Polygon arbitrage opportunity detector
(`src/main.rs`) and proofs about it.

Modelling conventions:
* Rust `f64` values (prices, profits, configuration decimals) are modelled
  as exact rationals `ℚ`.
* `U256` quote amounts are modelled as `ℕ`; `U256::as_u128` panics for
  values `≥ 2^128`, modelled by an `Option`.
* The external quote source adapter (`get_amounts_out`) is modelled by its
  result: `Except Unit (List ℕ)` — either an opaque failure or the returned
  amounts list.
* The infinite polling loop is modelled as a fold over the stream of
  per-tick adapter responses; a panic aborts the loop.
-/

namespace ArbBot

/-- Token configuration (`struct Tokens` in `main.rs`): the two token
addresses and their decimal precisions. Addresses are opaque naturals. -/
structure Tokens where
  weth : ℕ
  usdc : ℕ
  decimals_a : ℕ
  decimals_b : ℕ
  deriving DecidableEq

/-- A DEX descriptor (`struct Dex` in `main.rs`). The name is an opaque
identifier. -/
structure Dex where
  name : ℕ
  router_address : ℕ
  deriving DecidableEq

/-- Configuration (`struct Settings` in `main.rs`). -/
structure Settings where
  check_interval_seconds : ℕ
  minimum_profit_threshold : ℚ
  amount_in : ℚ
  simulated_gas_cost_usdc : ℚ
  tokens : Tokens
  dexes : List Dex
  deriving DecidableEq

/-- Distinguishable failure causes of `get_price`: the adapter call itself
failed (the `?` on `call().await` in `main.rs`), or the returned amounts
list had no index-1 element (the `eyre!` branch). -/
inductive FetchErr where
  | fetchFailure
  | quoteIncomplete
  deriving DecidableEq

/-- Result of one `get_price` call: a normalized rate, a recoverable
failure, or a panic (from `U256::as_u128` overflow). -/
inductive PriceResult where
  | ok (r : ℚ)
  | failed (e : FetchErr)
  | panicked
  deriving DecidableEq

/-- Whether a `get_price` result is a recoverable failure (`Err` in Rust). -/
def PriceResult.isFailed : PriceResult → Bool
  | .failed _ => true
  | _ => false

/-- `U256::as_u128`: defined only below `2^128`; larger values panic
(modelled as `none`). -/
def as_u128 (n : ℕ) : Option ℕ :=
  if n < 2 ^ 128 then some n else none

/-- `get_price` from `main.rs`, with the adapter call externalized into its
result `amounts_out`. On adapter failure the error propagates (`?`);
otherwise the index-1 element of the amounts is converted with `as_u128`
and divided by `10 ^ decimals_b`; a missing index-1 element is the
distinct `eyre!` error. -/
def get_price (amounts_out : Except Unit (List ℕ)) (tokens : Tokens) : PriceResult :=
  match amounts_out with
  | .error _ => .failed .fetchFailure
  | .ok amounts =>
    match amounts[1]? with
    | some amount =>
      match as_u128 amount with
      | some a => .ok ((a : ℚ) / 10 ^ tokens.decimals_b)
      | none => .panicked
    | none => .failed .quoteIncomplete

/-- The values computed by `check_opportunity` in `main.rs`: buy/sell
venue and price, gross and simulated (net) profit, and whether the
opportunity message is printed (`actionable`). -/
structure Opportunity where
  buy_dex : Dex
  sell_dex : Dex
  buy_price : ℚ
  sell_price : ℚ
  gross_profit : ℚ
  simulated_profit : ℚ
  actionable : Bool
  deriving DecidableEq

/-- `check_opportunity` from `main.rs`: buy on the cheaper DEX
(strict `<` comparison), sell on the other; gross profit is the rate gap
times `amount_in`; the simulated profit subtracts the configured gas
cost; the alert fires iff the simulated profit strictly exceeds the
threshold. -/
def check_opportunity (settings : Settings) (dex_a dex_b : Dex)
    (price_a price_b : ℚ) : Opportunity :=
  let (buy_dex, sell_dex, buy_price, sell_price) :=
    if price_a < price_b then (dex_a, dex_b, price_a, price_b)
    else (dex_b, dex_a, price_b, price_a)
  let gross_profit := (sell_price - buy_price) * settings.amount_in
  let simulated_profit := gross_profit - settings.simulated_gas_cost_usdc
  { buy_dex := buy_dex
    sell_dex := sell_dex
    buy_price := buy_price
    sell_price := sell_price
    gross_profit := gross_profit
    simulated_profit := simulated_profit
    actionable := decide (simulated_profit > settings.minimum_profit_threshold) }

/-- Observable outcome of one loop tick: the evaluated opportunity (absent
when the tick is skipped) and the number of failure notices written to
stderr (the single `eprintln!` in the `else` branch). -/
structure TickOutcome where
  result : Option Opportunity
  failure_notices : ℕ
  deriving DecidableEq

/-- One iteration of the main loop, fed by the two adapter responses for
this tick. `none` models a panic escaping `get_price` (process abort):
the first fetch is awaited first, so a panic there prevents the second.
On two `Ok` prices the opportunity is evaluated; otherwise the tick is
skipped with exactly one failure notice. -/
def run_tick (settings : Settings) (dex_a dex_b : Dex)
    (fetch_a fetch_b : Except Unit (List ℕ)) : Option TickOutcome :=
  match get_price fetch_a settings.tokens, get_price fetch_b settings.tokens with
  | .panicked, _ => none
  | _, .panicked => none
  | .ok price_a, .ok price_b =>
      some { result := some (check_opportunity settings dex_a dex_b price_a price_b)
             failure_notices := 0 }
  | _, _ => some { result := none, failure_notices := 1 }

/-- The main loop, run over a finite prefix of the stream of per-tick
adapter response pairs: each tick is processed independently; a panic
terminates the process (no further ticks). -/
def run_ticks (settings : Settings) (dex_a dex_b : Dex) :
    List (Except Unit (List ℕ) × Except Unit (List ℕ)) → List TickOutcome
  | [] => []
  | (fetch_a, fetch_b) :: rest =>
    match run_tick settings dex_a dex_b fetch_a fetch_b with
    | none => []
    | some o => o :: run_ticks settings dex_a dex_b rest

/-- Fatal startup errors. -/
inductive StartupErr where
  | configurationInvalid
  deriving DecidableEq

/-- The dummy venue used only to express in-bounds indexing. -/
def dummy_dex : Dex := { name := 0, router_address := 0 }

/-- `main` from `main.rs`, after configuration parsing: if fewer than two
DEXes are configured the process panics before any polling or network
activity (`Except.error`); otherwise the loop runs with `dexes[0]` and
`dexes[1]`. -/
def main_program (settings : Settings)
    (fetches : List (Except Unit (List ℕ) × Except Unit (List ℕ))) :
    Except StartupErr (List TickOutcome) :=
  if settings.dexes.length < 2 then
    .error .configurationInvalid
  else
    .ok (run_ticks settings (settings.dexes.getD 0 dummy_dex)
          (settings.dexes.getD 1 dummy_dex) fetches)

/-- A concrete configuration matching the spec's concrete scenario:
amount in 1.0, simulated cost 2.0, threshold 1.0. -/
def scenario_settings : Settings :=
  { check_interval_seconds := 1
    minimum_profit_threshold := 1
    amount_in := 1
    simulated_gas_cost_usdc := 2
    tokens := { weth := 0, usdc := 0, decimals_a := 18, decimals_b := 6 }
    dexes := [{ name := 0, router_address := 0 }, { name := 1, router_address := 1 }] }

/-- Concrete venue A for scenarios. -/
def dex_A : Dex := { name := 0, router_address := 0 }

/-- Concrete venue B for scenarios. -/
def dex_B : Dex := { name := 1, router_address := 1 }

/-! ### Branch lemmas for `check_opportunity` -/

theorem check_opportunity_of_lt (settings : Settings) (dex_a dex_b : Dex)
    (price_a price_b : ℚ) (h : price_a < price_b) :
    check_opportunity settings dex_a dex_b price_a price_b =
      { buy_dex := dex_a
        sell_dex := dex_b
        buy_price := price_a
        sell_price := price_b
        gross_profit := (price_b - price_a) * settings.amount_in
        simulated_profit :=
          (price_b - price_a) * settings.amount_in - settings.simulated_gas_cost_usdc
        actionable :=
          decide ((price_b - price_a) * settings.amount_in -
            settings.simulated_gas_cost_usdc > settings.minimum_profit_threshold) } := by
  simp only [check_opportunity, if_pos h]

theorem check_opportunity_of_not_lt (settings : Settings) (dex_a dex_b : Dex)
    (price_a price_b : ℚ) (h : ¬ price_a < price_b) :
    check_opportunity settings dex_a dex_b price_a price_b =
      { buy_dex := dex_b
        sell_dex := dex_a
        buy_price := price_b
        sell_price := price_a
        gross_profit := (price_a - price_b) * settings.amount_in
        simulated_profit :=
          (price_a - price_b) * settings.amount_in - settings.simulated_gas_cost_usdc
        actionable :=
          decide ((price_a - price_b) * settings.amount_in -
            settings.simulated_gas_cost_usdc > settings.minimum_profit_threshold) } := by
  simp only [check_opportunity, if_neg h]

theorem check_opportunity_gross (settings : Settings) (dex_a dex_b : Dex)
    (price_a price_b : ℚ) :
    (check_opportunity settings dex_a dex_b price_a price_b).gross_profit =
      ((check_opportunity settings dex_a dex_b price_a price_b).sell_price -
        (check_opportunity settings dex_a dex_b price_a price_b).buy_price) *
        settings.amount_in := by
  by_cases h : price_a < price_b
  · rw [check_opportunity_of_lt settings dex_a dex_b price_a price_b h]
  · rw [check_opportunity_of_not_lt settings dex_a dex_b price_a price_b h]

theorem check_opportunity_net (settings : Settings) (dex_a dex_b : Dex)
    (price_a price_b : ℚ) :
    (check_opportunity settings dex_a dex_b price_a price_b).simulated_profit =
      (check_opportunity settings dex_a dex_b price_a price_b).gross_profit -
        settings.simulated_gas_cost_usdc := by
  by_cases h : price_a < price_b
  · rw [check_opportunity_of_lt settings dex_a dex_b price_a price_b h]
  · rw [check_opportunity_of_not_lt settings dex_a dex_b price_a price_b h]

theorem check_opportunity_actionable_iff (settings : Settings) (dex_a dex_b : Dex)
    (price_a price_b : ℚ) :
    (check_opportunity settings dex_a dex_b price_a price_b).actionable = true ↔
      (check_opportunity settings dex_a dex_b price_a price_b).simulated_profit >
        settings.minimum_profit_threshold := by
  by_cases h : price_a < price_b
  · rw [check_opportunity_of_lt settings dex_a dex_b price_a price_b h]
    exact decide_eq_true_iff
  · rw [check_opportunity_of_not_lt settings dex_a dex_b price_a price_b h]
    exact decide_eq_true_iff

theorem isFailed_iff (r : PriceResult) :
    r.isFailed = true ↔ ∃ e, r = .failed e := by
  cases r <;> simp [PriceResult.isFailed]

/-! ### Evaluation lemmas for `get_price` -/

theorem get_price_ok (amounts : List ℕ) (q : ℕ) (t : Tokens)
    (hq : amounts[1]? = some q) (hlt : q < 2 ^ 128) :
    get_price (.ok amounts) t = .ok ((q : ℚ) / 10 ^ t.decimals_b) := by
  simp only [get_price]
  rw [hq]
  simp only [as_u128]
  rw [if_pos hlt]

theorem get_price_panic (amounts : List ℕ) (q : ℕ) (t : Tokens)
    (hq : amounts[1]? = some q) (hge : 2 ^ 128 ≤ q) :
    get_price (.ok amounts) t = .panicked := by
  simp only [get_price]
  rw [hq]
  simp only [as_u128]
  rw [if_neg (not_lt.mpr hge)]

theorem get_price_incomplete (amounts : List ℕ) (t : Tokens)
    (h : amounts[1]? = none) :
    get_price (.ok amounts) t = .failed .quoteIncomplete := by
  simp only [get_price]
  rw [h]

/-! ### Claims -/

/-- Claim C1: for every pair of rates, input amount, and cost model,
`check_opportunity` computes the gross profit as
`(sellRate - buyRate) * amountIn` and the net (simulated) profit as
`grossProfit - simulatedCost`; in the concrete scenario with
amountIn = 1.0, rateA = 1800.0, rateB = 1805.5, simulatedCost = 2.0,
threshold = 1.0 it selects buy on venue A, sell on venue B, gross profit
5.5, net profit 3.5 and the result is actionable. -/
theorem claim_C1_profit_formula_and_scenario (settings : Settings)
    (dex_a dex_b : Dex) (price_a price_b : ℚ) :
    ((check_opportunity settings dex_a dex_b price_a price_b).gross_profit =
        ((check_opportunity settings dex_a dex_b price_a price_b).sell_price -
          (check_opportunity settings dex_a dex_b price_a price_b).buy_price) *
          settings.amount_in ∧
      (check_opportunity settings dex_a dex_b price_a price_b).simulated_profit =
        (check_opportunity settings dex_a dex_b price_a price_b).gross_profit -
          settings.simulated_gas_cost_usdc) ∧
    ((check_opportunity scenario_settings dex_A dex_B 1800 1805.5).buy_dex = dex_A ∧
      (check_opportunity scenario_settings dex_A dex_B 1800 1805.5).sell_dex = dex_B ∧
      (check_opportunity scenario_settings dex_A dex_B 1800 1805.5).gross_profit = 5.5 ∧
      (check_opportunity scenario_settings dex_A dex_B 1800 1805.5).simulated_profit = 3.5 ∧
      (check_opportunity scenario_settings dex_A dex_B 1800 1805.5).actionable = true) := by
  refine ⟨⟨check_opportunity_gross settings dex_a dex_b price_a price_b,
    check_opportunity_net settings dex_a dex_b price_a price_b⟩, ?_⟩
  rw [check_opportunity_of_lt _ _ _ _ _ (by norm_num)]
  refine ⟨rfl, rfl, by norm_num [scenario_settings], by norm_num [scenario_settings],
    by norm_num [scenario_settings]⟩

/-- Claim C2 counterexample: the claim says a tick with exactly equal
rates is never actionable, but with a negative configured simulated cost
(allowed by the configuration type) equal rates do produce an actionable
result: net profit `0 - (-5) = 5` exceeds the threshold `1`. -/
theorem claim_C2_counterexample :
    (check_opportunity
      { check_interval_seconds := 1, minimum_profit_threshold := 1, amount_in := 1,
        simulated_gas_cost_usdc := -5,
        tokens := { weth := 0, usdc := 0, decimals_a := 18, decimals_b := 6 },
        dexes := [dex_A, dex_B] }
      dex_A dex_B 100 100).actionable = true := by
  rw [check_opportunity_of_not_lt _ _ _ _ _ (by norm_num)]
  norm_num

/-- Claim C2 (amended): the venue with the strictly lower rate is the buy
side and the other the sell side; at exactly equal rates venue A is the
sell side, venue B the buy side, gross profit is zero, and — provided the
configured simulated cost and threshold are non-negative — the result is
not actionable. -/
theorem claim_C2_direction_and_tiebreak (settings : Settings)
    (dex_a dex_b : Dex) (price_a price_b : ℚ) :
    (price_a < price_b →
      (check_opportunity settings dex_a dex_b price_a price_b).buy_dex = dex_a ∧
      (check_opportunity settings dex_a dex_b price_a price_b).sell_dex = dex_b) ∧
    (price_b < price_a →
      (check_opportunity settings dex_a dex_b price_a price_b).buy_dex = dex_b ∧
      (check_opportunity settings dex_a dex_b price_a price_b).sell_dex = dex_a) ∧
    (price_a = price_b →
      (check_opportunity settings dex_a dex_b price_a price_b).sell_dex = dex_a ∧
      (check_opportunity settings dex_a dex_b price_a price_b).buy_dex = dex_b ∧
      (check_opportunity settings dex_a dex_b price_a price_b).gross_profit = 0 ∧
      (0 ≤ settings.simulated_gas_cost_usdc → 0 ≤ settings.minimum_profit_threshold →
        (check_opportunity settings dex_a dex_b price_a price_b).actionable = false)) := by
  refine ⟨fun h => ?_, fun h => ?_, fun h => ?_⟩
  · rw [check_opportunity_of_lt _ _ _ _ _ h]
    exact ⟨rfl, rfl⟩
  · rw [check_opportunity_of_not_lt _ _ _ _ _ (lt_asymm h)]
    exact ⟨rfl, rfl⟩
  · subst h
    rw [check_opportunity_of_not_lt _ _ _ _ _ (lt_irrefl price_a)]
    refine ⟨rfl, rfl, by rw [sub_self, zero_mul], fun hc ht => ?_⟩
    simp only [sub_self, zero_mul, zero_sub]
    exact decide_eq_false (not_lt.mpr (le_trans (neg_nonpos.mpr hc) ht))

/-- Claim C2 witness: the three direction cases exercised at rates
(1, 2), (2, 1) and (1, 1) under the scenario configuration. -/
theorem claim_C2_witness :
    ((check_opportunity scenario_settings dex_A dex_B 1 2).buy_dex = dex_A ∧
      (check_opportunity scenario_settings dex_A dex_B 1 2).sell_dex = dex_B) ∧
    ((check_opportunity scenario_settings dex_A dex_B 2 1).buy_dex = dex_B ∧
      (check_opportunity scenario_settings dex_A dex_B 2 1).sell_dex = dex_A) ∧
    ((check_opportunity scenario_settings dex_A dex_B 1 1).sell_dex = dex_A ∧
      (check_opportunity scenario_settings dex_A dex_B 1 1).buy_dex = dex_B ∧
      (check_opportunity scenario_settings dex_A dex_B 1 1).gross_profit = 0 ∧
      (check_opportunity scenario_settings dex_A dex_B 1 1).actionable = false) := by
  refine ⟨(claim_C2_direction_and_tiebreak scenario_settings dex_A dex_B 1 2).1 (by norm_num),
    (claim_C2_direction_and_tiebreak scenario_settings dex_A dex_B 2 1).2.1 (by norm_num), ?_⟩
  obtain ⟨h1, h2, h3, h4⟩ :=
    (claim_C2_direction_and_tiebreak scenario_settings dex_A dex_B 1 1).2.2 rfl
  exact ⟨h1, h2, h3, h4 (by norm_num [scenario_settings]) (by norm_num [scenario_settings])⟩

/-- Claim C3: the result is actionable iff the simulated (net) profit
strictly exceeds the configured minimum profit threshold; a net profit
exactly equal to the threshold is not actionable. -/
theorem claim_C3_actionable_iff_strictly_above_threshold (settings : Settings)
    (dex_a dex_b : Dex) (price_a price_b : ℚ) :
    ((check_opportunity settings dex_a dex_b price_a price_b).actionable = true ↔
      (check_opportunity settings dex_a dex_b price_a price_b).simulated_profit >
        settings.minimum_profit_threshold) ∧
    ((check_opportunity settings dex_a dex_b price_a price_b).simulated_profit =
        settings.minimum_profit_threshold →
      (check_opportunity settings dex_a dex_b price_a price_b).actionable = false) := by
  have hiff := check_opportunity_actionable_iff settings dex_a dex_b price_a price_b
  refine ⟨hiff, fun h => ?_⟩
  rw [h] at hiff
  rcases Bool.eq_false_or_eq_true
      (check_opportunity settings dex_a dex_b price_a price_b).actionable with hb | hb
  · exact absurd (hiff.mp hb) (lt_irrefl _)
  · exact hb

/-- Claim C3 witness: with cost 0 and threshold 2, rates 100 and 102 give
a net profit of exactly 2, which is not actionable. -/
theorem claim_C3_witness :
    (check_opportunity
      { check_interval_seconds := 1, minimum_profit_threshold := 2, amount_in := 1,
        simulated_gas_cost_usdc := 0,
        tokens := { weth := 0, usdc := 0, decimals_a := 18, decimals_b := 6 },
        dexes := [dex_A, dex_B] }
      dex_A dex_B 100 102).actionable = false :=
  (claim_C3_actionable_iff_strictly_above_threshold _ dex_A dex_B 100 102).2
    (by rw [check_opportunity_of_lt _ _ _ _ _ (by norm_num)]; norm_num)

/-- Claim C4 counterexample: the claim quantifies over every non-negative
raw quote, but a quote is a `U256`, and for the real input `q = 2^128`
with quote decimals `d = 0` the code does not return `q / 10^d`: the
`as_u128` conversion panics before the division is reached. -/
theorem claim_C4_counterexample :
    get_price (.ok [0, 2 ^ 128])
        { weth := 0, usdc := 0, decimals_a := 18, decimals_b := 0 } = .panicked ∧
    get_price (.ok [0, 2 ^ 128])
        { weth := 0, usdc := 0, decimals_a := 18, decimals_b := 0 } ≠
      .ok ((2 ^ 128 : ℚ) / 10 ^ (0 : ℕ)) := by
  have h := get_price_panic [0, 2 ^ 128] (2 ^ 128)
    { weth := 0, usdc := 0, decimals_a := 18, decimals_b := 0 } rfl le_rfl
  exact ⟨h, by rw [h]; exact fun hcon => PriceResult.noConfusion hcon⟩

/-- Claim C4 (amended): for any successful adapter response with index-1
amount `q` *strictly below `2^128`* (above that bound the conversion
panics instead of normalizing, see C10) and quote decimals `d ≤ 18`,
`get_price` normalizes to exactly `q / 10^d` (in the exact-rational model
of the `f64` arithmetic, hence within tolerance `1/10^9`), and the rate
depends only on the quote token's decimals `decimals_b`, never on the
base token's `decimals_a`. -/
theorem claim_C4_normalization (amounts : List ℕ) (q : ℕ) (t t' : Tokens)
    (hq : amounts[1]? = some q) (hlt : q < 2 ^ 128) (_hd : t.decimals_b ≤ 18) :
    get_price (.ok amounts) t = .ok ((q : ℚ) / 10 ^ t.decimals_b) ∧
    (∀ r : ℚ, get_price (.ok amounts) t = .ok r →
      |r - (q : ℚ) / 10 ^ t.decimals_b| ≤ 1 / 10 ^ 9) ∧
    (t.decimals_b = t'.decimals_b →
      get_price (.ok amounts) t = get_price (.ok amounts) t') := by
  have h1 := get_price_ok amounts q t hq hlt
  refine ⟨h1, fun r hr => ?_, fun hdd => ?_⟩
  · rw [h1] at hr
    injection hr with h2
    rw [← h2, sub_self, abs_zero]
    norm_num
  · rw [h1, get_price_ok amounts q t' hq hlt, hdd]

/-- Claim C4 witness: the response `[0, 5]` with quote decimals 6
normalizes to `5 / 10^6` regardless of the base token decimals. -/
theorem claim_C4_witness :
    get_price (.ok [0, 5]) { weth := 0, usdc := 0, decimals_a := 18, decimals_b := 6 } =
      .ok ((5 : ℚ) / 10 ^ 6) ∧
    get_price (.ok [0, 5]) { weth := 0, usdc := 0, decimals_a := 18, decimals_b := 6 } =
      get_price (.ok [0, 5]) { weth := 0, usdc := 0, decimals_a := 2, decimals_b := 6 } := by
  have h := claim_C4_normalization [0, 5] 5
    { weth := 0, usdc := 0, decimals_a := 18, decimals_b := 6 }
    { weth := 0, usdc := 0, decimals_a := 2, decimals_b := 6 }
    rfl (by norm_num) (by norm_num)
  exact ⟨h.1, h.2.2 rfl⟩

/-- Claim C5 counterexample: the claim says a zero output amount is a
distinguishable failure, never a valid rate of zero; but on the response
`[1, 0]` the code returns the valid normalized rate `0`, not an error. -/
theorem claim_C5_counterexample :
    get_price (.ok [1, 0]) { weth := 0, usdc := 0, decimals_a := 18, decimals_b := 6 } =
      .ok 0 := by
  simp [get_price, as_u128]

/-- Claim C5 (amended): a missing output amount (no index-1 element) is a
distinguishable failure (`quoteIncomplete`), never a rate; a zero output
amount, however, is not detected and yields the valid normalized rate
zero. -/
theorem claim_C5_missing_fails_zero_is_valid (amounts : List ℕ) (t : Tokens) :
    (amounts[1]? = none →
      get_price (.ok amounts) t = .failed .quoteIncomplete) ∧
    (amounts[1]? = some 0 → get_price (.ok amounts) t = .ok 0) := by
  constructor
  · intro h
    exact get_price_incomplete amounts t h
  · intro h
    rw [get_price_ok amounts 0 t h (by norm_num)]
    norm_num

/-- Claim C5 witness: the empty response fails as incomplete; the response
`[1, 0]` yields the rate zero. -/
theorem claim_C5_witness :
    get_price (.ok []) { weth := 0, usdc := 0, decimals_a := 18, decimals_b := 6 } =
      .failed .quoteIncomplete ∧
    get_price (.ok [1, 0]) { weth := 0, usdc := 0, decimals_a := 18, decimals_b := 6 } =
      .ok 0 :=
  ⟨(claim_C5_missing_fails_zero_is_valid [] _).1 rfl,
   (claim_C5_missing_fails_zero_is_valid [1, 0] _).2 rfl⟩

/-- Claim C6 counterexample: the claim says that whenever either venue's
fetch fails the tick is skipped with one failure notice and the loop
proceeds; but when venue A's fetch fails while venue B returns an
index-1 amount of `2^128`, the `as_u128` conversion panics: the tick
aborts the process with no failure notice and no further tick runs. -/
theorem claim_C6_counterexample :
    run_tick scenario_settings dex_A dex_B (.error ()) (.ok [1, 2 ^ 128]) = none ∧
    run_ticks scenario_settings dex_A dex_B
      [(.error (), .ok [1, 2 ^ 128]), (.ok [1, 5], .ok [1, 6])] = [] := by
  constructor
  · simp [run_tick, get_price, as_u128]
  · simp [run_ticks, run_tick, get_price, as_u128]

/-- Claim C6 (amended): for every tick in which either venue's fetch
fails (for any reason, including an incomplete quote) and neither
conversion panics, no opportunity is evaluated, exactly one failure
notice is emitted, and the loop proceeds to the next tick. -/
theorem claim_C6_failed_fetch_skips_tick (settings : Settings) (dex_a dex_b : Dex)
    (fetch_a fetch_b : Except Unit (List ℕ))
    (rest : List (Except Unit (List ℕ) × Except Unit (List ℕ)))
    (ha : get_price fetch_a settings.tokens ≠ .panicked)
    (hb : get_price fetch_b settings.tokens ≠ .panicked)
    (hf : (get_price fetch_a settings.tokens).isFailed = true ∨
      (get_price fetch_b settings.tokens).isFailed = true) :
    run_tick settings dex_a dex_b fetch_a fetch_b =
      some { result := none, failure_notices := 1 } ∧
    run_ticks settings dex_a dex_b ((fetch_a, fetch_b) :: rest) =
      { result := none, failure_notices := 1 } ::
        run_ticks settings dex_a dex_b rest := by
  have htick : run_tick settings dex_a dex_b fetch_a fetch_b =
      some { result := none, failure_notices := 1 } := by
    rcases hA : get_price fetch_a settings.tokens with rA | eA | _
    · rcases hB : get_price fetch_b settings.tokens with rB | eB | _
      · rw [hA, hB] at hf
        simp [PriceResult.isFailed] at hf
      · simp [run_tick, hA, hB]
      · exact absurd hB hb
    · rcases hB : get_price fetch_b settings.tokens with rB | eB | _
      · simp [run_tick, hA, hB]
      · simp [run_tick, hA, hB]
      · exact absurd hB hb
    · exact absurd hA ha
  refine ⟨htick, ?_⟩
  simp only [run_ticks, htick]

/-- Claim C6 witness: venue A's fetch fails, venue B's succeeds — the
tick produces no result, one failure notice, and the (empty) remainder
of the loop is unaffected. -/
theorem claim_C6_witness :
    run_tick scenario_settings dex_A dex_B (.error ()) (.ok [1, 5]) =
      some { result := none, failure_notices := 1 } ∧
    run_ticks scenario_settings dex_A dex_B [(.error (), .ok [1, 5])] =
      [{ result := none, failure_notices := 1 }] := by
  have h := claim_C6_failed_fetch_skips_tick scenario_settings dex_A dex_B
    (.error ()) (.ok [1, 5]) []
    (by simp [get_price])
    (by simp [get_price, as_u128])
    (Or.inl (by simp [get_price, PriceResult.isFailed]))
  exact ⟨h.1, by rw [h.2]; rfl⟩

/-- Claim C7 counterexample: the claim says an incomplete quote is
reported as a distinct cause from a generic fetch failure; but the tick
outcome — including the single constant failure notice — is identical
for an incomplete quote (empty amounts) and a failed fetch, so the
reported output does not distinguish the cause. -/
theorem claim_C7_counterexample :
    run_tick scenario_settings dex_A dex_B (.ok []) (.ok [1, 5]) =
      run_tick scenario_settings dex_A dex_B (.error ()) (.ok [1, 5]) := by
  simp [run_tick, get_price, as_u128]

/-- Claim C7 (amended): an incomplete quote (fewer than two amounts) is
recovered identically to a generic fetch failure — the tick outcome is
the same for any failing fetch — and `get_price` returns it as the error
value `quoteIncomplete`, distinct from `fetchFailure`; but the per-tick
failure notice itself does not distinguish the cause. -/
theorem claim_C7_quote_incomplete_same_recovery_distinct_error
    (settings : Settings) (dex_a dex_b : Dex)
    (fetch_a fetch_a' fetch_b : Except Unit (List ℕ))
    (h : (get_price fetch_a settings.tokens).isFailed = true)
    (h' : (get_price fetch_a' settings.tokens).isFailed = true) :
    run_tick settings dex_a dex_b fetch_a fetch_b =
      run_tick settings dex_a dex_b fetch_a' fetch_b ∧
    (∀ amounts : List ℕ, amounts[1]? = none →
      get_price (.ok amounts) settings.tokens = .failed .quoteIncomplete) ∧
    get_price (.error ()) settings.tokens = .failed .fetchFailure ∧
    FetchErr.quoteIncomplete ≠ FetchErr.fetchFailure := by
  obtain ⟨e, he⟩ := (isFailed_iff _).mp h
  obtain ⟨e', he'⟩ := (isFailed_iff _).mp h'
  refine ⟨?_, fun amounts ham => get_price_incomplete amounts _ ham,
    by simp [get_price], by decide⟩
  rcases hB : get_price fetch_b settings.tokens with rB | eB | _ <;>
    simp [run_tick, he, he', hB]

/-- Claim C7 witness: an empty response and a failed fetch give identical
tick outcomes, while `get_price` itself returns the two distinct error
values. -/
theorem claim_C7_witness :
    run_tick scenario_settings dex_A dex_B (.ok []) (.ok [3, 7]) =
      run_tick scenario_settings dex_A dex_B (.error ()) (.ok [3, 7]) ∧
    get_price (.ok ([] : List ℕ)) scenario_settings.tokens =
      .failed .quoteIncomplete ∧
    get_price (.error ()) scenario_settings.tokens = .failed .fetchFailure ∧
    FetchErr.quoteIncomplete ≠ FetchErr.fetchFailure := by
  have h := claim_C7_quote_incomplete_same_recovery_distinct_error
    scenario_settings dex_A dex_B (.ok []) (.error ()) (.ok [3, 7])
    (by simp [get_price, PriceResult.isFailed])
    (by simp [get_price, PriceResult.isFailed])
  exact ⟨h.1, h.2.1 [] rfl, h.2.2.1, h.2.2.2⟩

/-- Claim C8: with fewer than two configured DEX descriptors, startup
fails fatally (the `panic!` before any connection or polling) and the
program never produces any tick — no quote request is ever evaluated. -/
theorem claim_C8_fewer_than_two_dexes_fatal (settings : Settings)
    (fetches : List (Except Unit (List ℕ) × Except Unit (List ℕ)))
    (h : settings.dexes.length < 2) :
    main_program settings fetches = .error .configurationInvalid ∧
    ∀ outs : List TickOutcome, main_program settings fetches ≠ .ok outs := by
  have hm : main_program settings fetches = .error .configurationInvalid := by
    unfold main_program
    rw [if_pos h]
  exact ⟨hm, fun outs hcon => by rw [hm] at hcon; exact Except.noConfusion hcon⟩

/-- Claim C8 witness: a configuration with a single DEX fails at startup
before any polling. -/
theorem claim_C8_witness :
    main_program
      { check_interval_seconds := 1, minimum_profit_threshold := 1, amount_in := 1,
        simulated_gas_cost_usdc := 2,
        tokens := { weth := 0, usdc := 0, decimals_a := 18, decimals_b := 6 },
        dexes := [dex_A] }
      [(.ok [1, 5], .ok [1, 6])] = .error .configurationInvalid :=
  (claim_C8_fewer_than_two_dexes_fatal _ _ (by simp)).1

/-- Claim C9 counterexample: the claim says increasing `sellRate -
buyRate` strictly increases the profits for any fixed `amountIn`; with
`amountIn = 0` the rate gap grows from 1 to 2 yet the gross profit stays
0, not a strict increase. -/
theorem claim_C9_counterexample :
    ((check_opportunity
        { check_interval_seconds := 1, minimum_profit_threshold := 1, amount_in := 0,
          simulated_gas_cost_usdc := 2,
          tokens := { weth := 0, usdc := 0, decimals_a := 18, decimals_b := 6 },
          dexes := [dex_A, dex_B] } dex_A dex_B 100 101).sell_price -
      (check_opportunity
        { check_interval_seconds := 1, minimum_profit_threshold := 1, amount_in := 0,
          simulated_gas_cost_usdc := 2,
          tokens := { weth := 0, usdc := 0, decimals_a := 18, decimals_b := 6 },
          dexes := [dex_A, dex_B] } dex_A dex_B 100 101).buy_price <
      (check_opportunity
        { check_interval_seconds := 1, minimum_profit_threshold := 1, amount_in := 0,
          simulated_gas_cost_usdc := 2,
          tokens := { weth := 0, usdc := 0, decimals_a := 18, decimals_b := 6 },
          dexes := [dex_A, dex_B] } dex_A dex_B 100 102).sell_price -
      (check_opportunity
        { check_interval_seconds := 1, minimum_profit_threshold := 1, amount_in := 0,
          simulated_gas_cost_usdc := 2,
          tokens := { weth := 0, usdc := 0, decimals_a := 18, decimals_b := 6 },
          dexes := [dex_A, dex_B] } dex_A dex_B 100 102).buy_price) ∧
    ¬ ((check_opportunity
        { check_interval_seconds := 1, minimum_profit_threshold := 1, amount_in := 0,
          simulated_gas_cost_usdc := 2,
          tokens := { weth := 0, usdc := 0, decimals_a := 18, decimals_b := 6 },
          dexes := [dex_A, dex_B] } dex_A dex_B 100 101).gross_profit <
      (check_opportunity
        { check_interval_seconds := 1, minimum_profit_threshold := 1, amount_in := 0,
          simulated_gas_cost_usdc := 2,
          tokens := { weth := 0, usdc := 0, decimals_a := 18, decimals_b := 6 },
          dexes := [dex_A, dex_B] } dex_A dex_B 100 102).gross_profit) := by
  rw [check_opportunity_of_lt _ _ _ _ _ (show (100 : ℚ) < 101 by norm_num),
    check_opportunity_of_lt _ _ _ _ _ (show (100 : ℚ) < 102 by norm_num)]
  norm_num

/-- Claim C9 (amended): for any fixed positive `amountIn` and fixed
simulated cost, increasing the evaluator's rate gap `sellRate - buyRate`
strictly increases both the gross and the simulated (net) profit. -/
theorem claim_C9_profit_monotonic (settings : Settings) (dex_a dex_b : Dex)
    (price_a price_b price_a' price_b' : ℚ)
    (hpos : 0 < settings.amount_in)
    (h : (check_opportunity settings dex_a dex_b price_a price_b).sell_price -
        (check_opportunity settings dex_a dex_b price_a price_b).buy_price <
      (check_opportunity settings dex_a dex_b price_a' price_b').sell_price -
        (check_opportunity settings dex_a dex_b price_a' price_b').buy_price) :
    (check_opportunity settings dex_a dex_b price_a price_b).gross_profit <
      (check_opportunity settings dex_a dex_b price_a' price_b').gross_profit ∧
    (check_opportunity settings dex_a dex_b price_a price_b).simulated_profit <
      (check_opportunity settings dex_a dex_b price_a' price_b').simulated_profit := by
  have hg : (check_opportunity settings dex_a dex_b price_a price_b).gross_profit <
      (check_opportunity settings dex_a dex_b price_a' price_b').gross_profit := by
    rw [check_opportunity_gross settings dex_a dex_b price_a price_b,
      check_opportunity_gross settings dex_a dex_b price_a' price_b']
    exact mul_lt_mul_of_pos_right h hpos
  refine ⟨hg, ?_⟩
  rw [check_opportunity_net settings dex_a dex_b price_a price_b,
    check_opportunity_net settings dex_a dex_b price_a' price_b']
  exact sub_lt_sub_right hg _

/-- Claim C9 witness: under the scenario configuration (amount 1), a rate
gap of 2 beats a rate gap of 1 in both profits. -/
theorem claim_C9_witness :
    (check_opportunity scenario_settings dex_A dex_B 100 101).gross_profit <
      (check_opportunity scenario_settings dex_A dex_B 100 102).gross_profit ∧
    (check_opportunity scenario_settings dex_A dex_B 100 101).simulated_profit <
      (check_opportunity scenario_settings dex_A dex_B 100 102).simulated_profit :=
  claim_C9_profit_monotonic scenario_settings dex_A dex_B 100 101 100 102
    (by norm_num [scenario_settings])
    (by rw [check_opportunity_of_lt _ _ _ _ _ (show (100 : ℚ) < 101 by norm_num),
        check_opportunity_of_lt _ _ _ _ _ (show (100 : ℚ) < 102 by norm_num)]
        norm_num)

/-- Claim C10: normalization converts the raw quote with `as_u128`, which
is only defined below `2^128`: a successful adapter response whose
index-1 amount is at least `2^128` panics instead of returning an error
or a rate, while amounts below `2^128` normalize as usual. -/
theorem claim_C10_as_u128_overflow_panics (amounts : List ℕ) (q : ℕ) (t : Tokens)
    (hq : amounts[1]? = some q) :
    (2 ^ 128 ≤ q → get_price (.ok amounts) t = .panicked) ∧
    (q < 2 ^ 128 →
      get_price (.ok amounts) t = .ok ((q : ℚ) / 10 ^ t.decimals_b)) := by
  exact ⟨fun h => get_price_panic amounts q t hq h,
    fun h => get_price_ok amounts q t hq h⟩

/-- Claim C10 witness: an index-1 amount of exactly `2^128` panics, while
the amount 5 yields a rate. -/
theorem claim_C10_witness :
    get_price (.ok [0, 2 ^ 128]) { weth := 0, usdc := 0, decimals_a := 18, decimals_b := 6 } =
      .panicked ∧
    get_price (.ok [0, 5]) { weth := 1, usdc := 1, decimals_a := 18, decimals_b := 6 } =
      .ok ((5 : ℚ) / 10 ^ 6) :=
  ⟨(claim_C10_as_u128_overflow_panics [0, 2 ^ 128] (2 ^ 128) _ rfl).1 le_rfl,
   (claim_C10_as_u128_overflow_panics [0, 5] 5 _ rfl).2 (by norm_num)⟩

end ArbBot
